import Mathlib

/-!
Verification of the color-composition core of the `terminal` library
(`terminal/color.py`).  Every definition in this file is a shallow
embedding of a function or class of that module; machine arithmetic is
modelled with `Nat` (all quantities involved are nonnegative integers),
Python exceptions with `Except`, and Python's `None` with `Option`.
-/

/-- The two kinds of Python exception the color resolver can raise:
`ValueError` (raised explicitly by `hex2ansi` / `_color2ansi` and by
`int(s, 16)` on an unparseable string — the spec calls this
`InvalidColorError`) and `TypeError` (raised by CPython itself when
`rgb2ansi(*color)` is called with an argument count other than 3). -/
inductive PyErr where
  | valueError
  | typeError
deriving DecidableEq, Repr

deriving instance DecidableEq for Except

/-- Value of a single ASCII hexadecimal digit character, `none` for any
other character. -/
def hexVal (c : Char) : Option Nat :=
  if '0' ≤ c ∧ c ≤ '9' then some (c.toNat - 48)
  else if 'a' ≤ c ∧ c ≤ 'f' then some (c.toNat - 87)
  else if 'A' ≤ c ∧ c ≤ 'F' then some (c.toNat - 55)
  else none

/-- The ASCII characters Python 3 treats as whitespace when parsing an
`int` literal: space, `\t`–`\r` (9–13), and the separator controls
28–31.  (CPython additionally transliterates non-ASCII Unicode spaces;
non-ASCII characters are outside the modelled character set.) -/
def pySpace (c : Char) : Bool :=
  decide (c = ' ' ∨ (9 ≤ c.toNat ∧ c.toNat ≤ 13) ∨ (28 ≤ c.toNat ∧ c.toNat ≤ 31))

/-- CPython's `int(s, 16)` on the two-character strings that `hex2ansi`
cuts (every `int` call in the module receives exactly two characters:
a 2-character slice of a 6-digit code, or a doubled character `o * 2`
of a 3-digit code).  Besides two plain hex digits, `int` accepts a
single hex digit adorned with a leading sign or with leading/trailing
whitespace — `int(' f', 16) = 15`, `int('f ', 16) = 15`,
`int('+f', 16) = 15`, `int('-f', 16) = -15` (hence the `Int` result) —
while `'0x'`, `'_f'`, `'f_'`, all-whitespace and every other
2-character form leave no digits and raise `ValueError`.
(CPython also transliterates non-ASCII decimal digits to ASCII;
non-ASCII characters are outside the modelled character set.) -/
def pyIntHex2 (x y : Char) : Option Int :=
  match hexVal x, hexVal y with
  | some u, some v => some (16 * (u : Int) + (v : Int))
  | some u, none => if pySpace y then some ((u : Int)) else none
  | none, some v =>
    if x = '+' then some ((v : Int))
    else if x = '-' then some (-(v : Int))
    else if pySpace x then some ((v : Int))
    else none
  | none, none => none

/-- `code[1:] if code.startswith('#') else code`: strip one leading
`'#'` from a hex color code. -/
def stripHash (l : List Char) : List Char :=
  if l.head? = some '#' then l.tail else l

/-- The `while poss:` loop of `rgb2ansi`.  The Python loop tests
`min(r, g, b) < step` for `step = 2.5, 45.0, 87.5, ...` (all exactly
representable floats); on the first success it records
`max(r, g, b) < step` as the grayscale verdict.  With integer channel
values, `x < 2.5 + 42.5 * k` is exactly `2 * x < 5 + 85 * k`, which is
how the float thresholds are rendered here.  `mn`/`mx` are
`min(r, g, b)` / `max(r, g, b)` and `k` counts completed increments. -/
def grayLoop (mn mx k : Nat) : Bool :=
  if 2 * mn < 5 + 85 * k then 2 * mx < 5 + 85 * k
  else grayLoop mn mx (k + 1)
termination_by 2 * mn + 5 - 85 * k
decreasing_by omega

/-- `rgb2ansi(r, g, b)`: convert an RGB color to a 256-color palette
index.  `int(float(sum((r, g, b)) / 33.0))` and
`int(6 * float(val) / 256)` are truncating divisions of nonnegative
integers, i.e. `Nat` division (the float quotients can never round
across an integer boundary for channel values 0–255). -/
def rgb2ansi (r g b : Nat) : Nat :=
  if grayLoop (min r (min g b)) (max r (max g b)) 0
  then 232 + (r + g + b) / 33
  else 16 + (6 * r / 256) * 36 + (6 * g / 256) * 6 + (6 * b / 256) * 1

/-- The same `while poss:` loop of `rgb2ansi` over Python ints of
either sign (a negative channel value reaches `rgb2ansi` when a hex
piece like `'-f'` parses to a negative int).  On negative `mn` the very
first test `min < 2.5` succeeds.  `grayLoopZ ↑mn ↑mx k = grayLoop mn
mx k` on naturals (`grayLoopZ_cast` below). -/
def grayLoopZ (mn mx : Int) (k : Nat) : Bool :=
  if 2 * mn < 5 + 85 * (k : Int) then 2 * mx < 5 + 85 * (k : Int)
  else grayLoopZ mn mx (k + 1)
termination_by (2 * mn + 5 - 85 * (k : Int)).toNat
decreasing_by omega

/-- `rgb2ansi(r, g, b)` over Python ints of either sign, as reached
from the hex path.  Python's `int(float(...))` truncates toward zero,
which on `Int` is `Int.tdiv` (the float quotients at these magnitudes
never round across an integer boundary).  On naturals this agrees with
the `Nat`-level `rgb2ansi` (`rgb2ansiZ_natCast` below). -/
def rgb2ansiZ (r g b : Int) : Int :=
  if grayLoopZ (min r (min g b)) (max r (max g b)) 0
  then 232 + (r + g + b).tdiv 33
  else 16 + (6 * r).tdiv 256 * 36 + (6 * g).tdiv 256 * 6 + (6 * b).tdiv 256 * 1

/-- `hex2ansi(code)`: convert a hex code (with optional leading `'#'`)
to a palette index.  A 3-character code has each character doubled
(`int(o * 2, 16)`, i.e. `pyIntHex2 o o`); a 6-character code is split
into three 2-character pieces; any other length raises
`ValueError('invalid color code')`, and a piece `int` cannot parse
raises `ValueError`.  The returned Python int is always nonnegative
because every parsed piece is at least `-15` (`rgb2ansiZ_nonneg`
below), so `Int.toNat` is exact here. -/
def hex2ansi (code : List Char) : Except PyErr Nat :=
  match stripHash code with
  | [a, b, c] =>
    match pyIntHex2 a a, pyIntHex2 b b, pyIntHex2 c c with
    | some r, some g, some b2 => .ok (rgb2ansiZ r g b2).toNat
    | _, _, _ => .error .valueError
  | [a, b, c, d, e, f] =>
    match pyIntHex2 a b, pyIntHex2 c d, pyIntHex2 e f with
    | some r, some g, some b2 => .ok (rgb2ansiZ r g b2).toNat
    | _, _, _ => .error .valueError
  | _ => .error .valueError

/-- The module constant `_reset = '\x1b[0;39;49m'`. -/
def _reset : String := "\x1b[0;39;49m"

/-- The module tuple `_styles` of the 9 style names, in source order
(the style code of a name is its index here plus 1). -/
def _styles : List (List Char) :=
  ["bold".data, "faint".data, "italic".data, "underline".data, "blink".data,
   "overline".data, "inverse".data, "conceal".data, "strike".data]

/-- The module tuple `_colors` of the 8 base color names, in source
order (the palette index of a name is its index here). -/
def _colors : List (List Char) :=
  ["black".data, "red".data, "green".data, "yellow".data,
   "blue".data, "magenta".data, "cyan".data, "white".data]

/-- A Python value passed to `_color2ansi` as a color specification:
a string (list of characters), a numeric sequence (tuple or list of
nonnegative integers), or a value of any other type. -/
inductive PyVal where
  | str (s : List Char)
  | seq (xs : List Nat)
  | other
deriving DecidableEq, Repr

/-- `_color2ansi(color)`: a named color resolves to its index in
`_colors`; any other string goes through `hex2ansi`; a tuple or list is
splatted into `rgb2ansi(*color)` — which is a `TypeError` unless it has
exactly 3 elements; every other type raises
`ValueError('invalid color: ...')`. -/
def _color2ansi (color : PyVal) : Except PyErr Nat :=
  match color with
  | .str s => if s ∈ _colors then .ok (_colors.indexOf s) else hex2ansi s
  | .seq xs =>
    match xs with
    | [r, g, b] => .ok (rgb2ansi r g b)
    | _ => .error .typeError
  | .other => .error .valueError

/-- The `Color` class: holds the text (`self.unicode_text`) and the
accumulated color and style settings.  Colors are stored as resolved
palette indices (`Option Nat` models `None`-or-`int`); `styles` is the
list of style codes in insertion order. -/
structure Color where
  unicode_text : String
  fgcolor : Option Nat
  bgcolor : Option Nat
  styles : List Nat
deriving DecidableEq, Repr

/-- The `raw` argument of `Color.__init__`: either a plain (unicode)
string or an existing `Color` instance to be merged with. -/
inductive Raw where
  | str (s : String)
  | col (c : Color)
deriving DecidableEq, Repr

/-- `list(set(styles + raw.styles))` of `Color.__init__`: the
concatenation with duplicates removed.  CPython's `set` leaves the
iteration order unspecified; `List.dedup` fixes one order, and every
property verified below about merged styles is order-insensitive
(membership and duplicate-freeness only). -/
def pySetUnion (new old : List Nat) : List Nat :=
  (new ++ old).dedup

/-- `Color.__init__(raw, fgcolor, bgcolor, styles)`.  For a string the
three settings are stored as given (`styles or []` turns `None` into
`[]`).  For an existing `Color` the text is taken from it, a `None`
fgcolor/bgcolor falls back to the existing one, and styles, when
supplied, become `list(set(styles + raw.styles))`.  The constructor's
`_color2ansi` call on non-`int` color arguments is not reachable here
because the embedding stores colors as resolved indices already (every
call site in the module passes `None` or an `int`). -/
def Color.init (raw : Raw) (fgcolor bgcolor : Option Nat)
    (styles : Option (List Nat)) : Color :=
  match raw with
  | .str s =>
    { unicode_text := s, fgcolor := fgcolor, bgcolor := bgcolor,
      styles := styles.getD [] }
  | .col a =>
    { unicode_text := a.unicode_text
      fgcolor := match fgcolor with | some v => some v | none => a.fgcolor
      bgcolor := match bgcolor with | some v => some v | none => a.bgcolor
      styles := match styles with
        | some s => pySetUnion s a.styles
        | none => a.styles }

/-- `Color.__getattr__(key)` (the spec's fluent capability-set access,
failing with `UnknownAttributeError` — Python `AttributeError` —
modelled as `none`).  `key.endswith('_bg')` is rendered as a pattern
match on the reversed character list and `key[:-3]` as dropping the
three tag characters; a named color sets `fgcolor`, a `_bg` variant
sets `bgcolor`, and a style name appends its code (`index + 1`) to
`styles`.  The Python method mutates `self` and returns it; the
embedding returns the updated value. -/
def Color.getattr (c : Color) (key : List Char) : Option Color :=
  match key.reverse with
  | 'g' :: 'b' :: '_' :: revName =>
    if revName.reverse ∈ _colors then
      some { c with bgcolor := some (_colors.indexOf revName.reverse) }
    else none
  | _ =>
    if key ∈ _colors then
      some { c with fgcolor := some (_colors.indexOf key) }
    else if key ∈ _styles then
      some { c with styles := c.styles ++ [_styles.indexOf key + 1] }
    else none

/-- `Color.__unicode__()` — rendering to the final escape-coded string.
The module globals `_is_color_supported` and `_is_256color_supported`
are passed as the parameters `sup` and `sup256`.  Each `'...%i...%s%s'`
format is rendered as the corresponding string concatenation. -/
def Color.unicode (c : Color) (sup sup256 : Bool) : String :=
  if sup = false then c.unicode_text
  else
    let d1 :=
      if sup256 then
        let dA := match c.fgcolor with
          | some fg => "\x1b[38;5;" ++ toString fg ++ "m" ++ c.unicode_text ++ _reset
          | none => c.unicode_text
        match c.bgcolor with
        | some bg => "\x1b[48;5;" ++ toString bg ++ "m" ++ dA ++ _reset
        | none => dA
      else
        let dA := match c.fgcolor with
          | some fg =>
            if fg < 8 then "\x1b[" ++ toString (30 + fg) ++ "m" ++ c.unicode_text ++ _reset
            else c.unicode_text
          | none => c.unicode_text
        match c.bgcolor with
        | some bg =>
          if bg < 8 then "\x1b[" ++ toString (40 + bg) ++ "m" ++ dA ++ _reset
          else dA
        | none => dA
    if c.styles ≠ [] then
      "\x1b[" ++ String.intercalate ";" (c.styles.map toString) ++ "m" ++ d1 ++ _reset
    else d1

/-- `colorize(text, color)`: a style name applies that single style,
anything else is resolved as a foreground color (propagating resolver
errors). -/
def colorize (text : String) (color : PyVal) : Except PyErr Color :=
  if (match color with | .str s => decide (s ∈ _styles) | _ => false) then
    .ok { unicode_text := text, fgcolor := none, bgcolor := none,
          styles := [(match color with | .str s => _styles.indexOf s | _ => 0) + 1] }
  else do
    let idx ← _color2ansi color
    .ok { unicode_text := text, fgcolor := some idx, bgcolor := none, styles := [] }

/-- `_create_color_func(fgcolor, bgcolor, styles)`: factory for the
convenience constructors. -/
def _create_color_func (fgcolor bgcolor : Option Nat)
    (styles : Option (List Nat)) : Raw → Color :=
  fun text => Color.init text fgcolor bgcolor styles

/-- `bold = _create_color_func(styles=[1])`. -/
def bold : Raw → Color := _create_color_func none none (some [1])

/-- `faint = _create_color_func(styles=[2])`. -/
def faint : Raw → Color := _create_color_func none none (some [2])

/-- `italic = _create_color_func(styles=[3])`. -/
def italic : Raw → Color := _create_color_func none none (some [3])

/-- `underline = _create_color_func(styles=[4])`. -/
def underline : Raw → Color := _create_color_func none none (some [4])

/-- `blink = _create_color_func(styles=[5])`. -/
def blink : Raw → Color := _create_color_func none none (some [5])

/-- `overline = _create_color_func(styles=[6])`. -/
def overline : Raw → Color := _create_color_func none none (some [6])

/-- `inverse = _create_color_func(styles=[7])`. -/
def inverse : Raw → Color := _create_color_func none none (some [7])

/-- `conceal = _create_color_func(styles=[8])`. -/
def conceal : Raw → Color := _create_color_func none none (some [8])

/-- `strike = _create_color_func(styles=[9])`. -/
def strike : Raw → Color := _create_color_func none none (some [9])

/-- `black = _create_color_func(fgcolor=0)`. -/
def black : Raw → Color := _create_color_func (some 0) none none

/-- `red = _create_color_func(fgcolor=1)`. -/
def red : Raw → Color := _create_color_func (some 1) none none

/-- `green = _create_color_func(fgcolor=2)`. -/
def green : Raw → Color := _create_color_func (some 2) none none

/-- `yellow = _create_color_func(fgcolor=3)`. -/
def yellow : Raw → Color := _create_color_func (some 3) none none

/-- `blue = _create_color_func(fgcolor=4)`. -/
def blue : Raw → Color := _create_color_func (some 4) none none

/-- `magenta = _create_color_func(fgcolor=5)`. -/
def magenta : Raw → Color := _create_color_func (some 5) none none

/-- `cyan = _create_color_func(fgcolor=6)`. -/
def cyan : Raw → Color := _create_color_func (some 6) none none

/-- `white = _create_color_func(fgcolor=7)`. -/
def white : Raw → Color := _create_color_func (some 7) none none

/-- `gray`, chosen at import time by `_is_256color_supported` (passed
here as the parameter): extended index 8 when the 256-color palette is
supported, else base black plus the conceal style (code 8). -/
def gray (sup256 : Bool) : Raw → Color :=
  if sup256 then _create_color_func (some 8) none none
  else _create_color_func (some 0) none (some [8])

/-- `grey = gray`. -/
def grey : Bool → Raw → Color := gray

/-- `black_bg = _create_color_func(bgcolor=0)`. -/
def black_bg : Raw → Color := _create_color_func none (some 0) none

/-- `red_bg = _create_color_func(bgcolor=1)`. -/
def red_bg : Raw → Color := _create_color_func none (some 1) none

/-- `gray_bg`, chosen at import time by `_is_256color_supported`:
extended background index 8 when supported, else base black background
plus the bold style (code 1). -/
def gray_bg (sup256 : Bool) : Raw → Color :=
  if sup256 then _create_color_func none (some 8) none
  else _create_color_func none (some 0) (some [1])

/-- `grey_bg = gray_bg`. -/
def grey_bg : Bool → Raw → Color := gray_bg

/-- Some iteration of the threshold sequence `2.5 + 42.5 * k` exceeds
any channel minimum (take `k = mn`), so the claim's "first time
`min(r,g,b)` is below the current threshold" is well defined. -/
def exists_threshold (mn : Nat) : ∃ k, 2 * mn < 5 + 85 * k :=
  ⟨mn, by omega⟩

/-- Modelled from the claim's words: the index of the first threshold
iteration at which `min(r,g,b)` drops below `2.5 + 42.5 * k`
(thresholds doubled to compare integers exactly). -/
def firstStop (mn : Nat) : Nat := Nat.find (exists_threshold mn)

/-- Modelled from the claim's words (C2): stop the first time
`min(r,g,b)` is below the threshold, classify as grayscale iff
`max(r,g,b)` is also below that same threshold, then apply
`232 + floor((r+g+b)/33)` or
`16 + floor(6r/256)*36 + floor(6g/256)*6 + floor(6b/256)*1`. -/
def rgb2ansiSpec (r g b : Nat) : Nat :=
  if 2 * max r (max g b) < 5 + 85 * firstStop (min r (min g b))
  then 232 + (r + g + b) / 33
  else 16 + (6 * r / 256) * 36 + (6 * g / 256) * 6 + (6 * b / 256) * 1

/-- A character list (after stripping a leading `'#'`) on which the
program's hex parsing succeeds: either 3 characters that are all hex
digits (a doubled non-digit never parses), or 6 characters whose three
2-character pieces are each accepted by `int(·, 16)` (plain digit
pairs, or a single digit adorned with a sign or whitespace). -/
def pyParsableHex (l : List Char) : Prop :=
  match l with
  | [a, b, c] =>
    (hexVal a).isSome = true ∧ (hexVal b).isSome = true ∧ (hexVal c).isSome = true
  | [a, b, c, d, e, f] =>
    (pyIntHex2 a b).isSome = true ∧ (pyIntHex2 c d).isSome = true ∧
      (pyIntHex2 e f).isSome = true
  | _ => False

/-- The capability set of `Color.__getattr__`: the 8 color names, their
8 `_bg` variants, and the 9 style names (25 names in all). -/
def capSet : List (List Char) :=
  _colors ++ _colors.map (fun n => n ++ ['_', 'b', 'g']) ++ _styles

/-- Value of a hex digit with default 0 (used only under a hypothesis
that the digit is valid). -/
def hv (c : Char) : Nat := (hexVal c).getD 0

/-- Closed form of the threshold loop: it answers whether
`max(r,g,b)` is below the first threshold (at or after iteration `k`)
that `min(r,g,b)` is below. -/
theorem grayLoop_closed (mn mx k : Nat) :
    grayLoop mn mx k = decide (2 * mx < 5 + 85 * max k ((2 * mn + 80) / 85)) := by
  induction k using grayLoop.induct mn mx with
  | case1 k h =>
    unfold grayLoop
    rw [if_pos h]
    simp only [decide_eq_decide]
    omega
  | case2 k h ih =>
    unfold grayLoop
    rw [if_neg h, ih]
    simp only [decide_eq_decide]
    omega

/-- The first threshold index below which `mn` falls, in closed form. -/
theorem firstStop_closed (mn : Nat) : firstStop mn = (2 * mn + 80) / 85 := by
  rw [firstStop, Nat.find_eq_iff]
  refine ⟨by omega, ?_⟩
  intro k hk
  omega

/-- The source loop implements exactly the first-threshold procedure of
the claim. -/
theorem rgb2ansi_eq_spec (r g b : Nat) : rgb2ansi r g b = rgb2ansiSpec r g b := by
  unfold rgb2ansi rgb2ansiSpec
  rw [grayLoop_closed, firstStop_closed, Nat.zero_max]
  simp only [decide_eq_true_eq]

theorem rgb2ansi_255_0_0 : rgb2ansi 255 0 0 = 196 := by
  unfold rgb2ansi
  rw [grayLoop_closed]
  decide

theorem rgb2ansi_black : rgb2ansi 0 0 0 = 232 := by
  unfold rgb2ansi
  rw [grayLoop_closed]
  decide

theorem rgb2ansi_white : rgb2ansi 255 255 255 = 255 := by
  unfold rgb2ansi
  rw [grayLoop_closed]
  decide

/-- Claim C2: for every RGB triple with components in 0–255 the
resolver follows the exact threshold procedure — first threshold
`2.5 + 42.5k` under which `min(r,g,b)` falls, grayscale iff
`max(r,g,b)` is under that same threshold, grayscale index
`232 + (r+g+b)/33`, chromatic index
`16 + (6r/256)*36 + (6g/256)*6 + (6b/256)*1` with truncating division;
in particular black resolves to 232 and white to 255. -/
theorem C2_rgb_threshold_procedure :
    (∀ r g b : Nat, r ≤ 255 → g ≤ 255 → b ≤ 255 →
      rgb2ansi r g b = rgb2ansiSpec r g b)
    ∧ rgb2ansi 0 0 0 = 232 ∧ rgb2ansi 255 255 255 = 255 :=
  ⟨fun r g b _ _ _ => rgb2ansi_eq_spec r g b, rgb2ansi_black, rgb2ansi_white⟩

/-- Witness for C2 at the concrete triple (0, 0, 0). -/
theorem C2_rgb_threshold_procedure_witness :
    rgb2ansi 0 0 0 = rgb2ansiSpec 0 0 0 :=
  C2_rgb_threshold_procedure.1 0 0 0 (by decide) (by decide) (by decide)

/-- On naturals the `Int`-level threshold loop agrees with the
`Nat`-level one. -/
theorem grayLoopZ_cast (mn mx k : Nat) :
    grayLoopZ (mn : Int) (mx : Int) k = grayLoop mn mx k := by
  induction k using grayLoop.induct mn mx with
  | case1 k h =>
    unfold grayLoopZ grayLoop
    have hz : 2 * (mn : Int) < 5 + 85 * (k : Int) := by exact_mod_cast h
    rw [if_pos hz, if_pos h]
    simp only [decide_eq_decide]
    omega
  | case2 k h ih =>
    unfold grayLoopZ grayLoop
    have hz : ¬ 2 * (mn : Int) < 5 + 85 * (k : Int) := by
      intro hc
      exact h (by exact_mod_cast hc)
    rw [if_neg hz, if_neg h]
    exact ih

/-- On naturals the `Int`-level `rgb2ansiZ` agrees with the
`Nat`-level `rgb2ansi` (truncation toward zero is plain division on
nonnegative values). -/
theorem rgb2ansiZ_natCast (r g b : Nat) :
    rgb2ansiZ (r : Int) (g : Int) (b : Int) = ((rgb2ansi r g b : Nat) : Int) := by
  unfold rgb2ansiZ rgb2ansi
  rw [show min (r : Int) (min (g : Int) (b : Int)) = ((min r (min g b) : Nat) : Int) by
        push_cast; rfl,
      show max (r : Int) (max (g : Int) (b : Int)) = ((max r (max g b) : Nat) : Int) by
        push_cast; rfl,
      grayLoopZ_cast]
  split
  · rw [show (r : Int) + (g : Int) + (b : Int) = ((r + g + b : Nat) : Int) by push_cast; ring,
      show (33 : Int) = ((33 : Nat) : Int) from rfl, ← Int.ofNat_tdiv]
    push_cast
    ring
  · rw [show 6 * (r : Int) = ((6 * r : Nat) : Int) by push_cast; ring,
      show 6 * (g : Int) = ((6 * g : Nat) : Int) by push_cast; ring,
      show 6 * (b : Int) = ((6 * b : Nat) : Int) by push_cast; ring,
      show (256 : Int) = ((256 : Nat) : Int) from rfl,
      ← Int.ofNat_tdiv, ← Int.ofNat_tdiv, ← Int.ofNat_tdiv]
    push_cast
    ring

/-- A chromatic term of `rgb2ansiZ` is nonnegative as soon as the
channel exceeds `-43`: a negative channel of that size truncates to
zero. -/
theorem tdiv256_nonneg (x : Int) (h : -43 < x) : 0 ≤ (6 * x).tdiv 256 := by
  rcases le_or_lt 0 x with hx | hx
  · exact Int.tdiv_nonneg (by omega) (by omega)
  · rw [show 6 * x = -(6 * (-x)) by ring, Int.neg_tdiv,
      Int.tdiv_eq_zero_of_lt (by omega) (by omega)]
    simp

/-- The palette index computed by `rgb2ansiZ` is nonnegative whenever
every channel exceeds `-16` — in particular for every channel value a
2-character piece can parse to (at least `-15`).  This justifies the
exact `Int.toNat` in `hex2ansi`. -/
theorem rgb2ansiZ_nonneg (r g b : Int) (hr : -16 < r) (hg : -16 < g)
    (hb : -16 < b) : 0 ≤ rgb2ansiZ r g b := by
  unfold rgb2ansiZ
  split
  · rcases le_or_lt 0 (r + g + b) with hs | hs
    · have := Int.tdiv_nonneg hs (by omega : (0 : Int) ≤ 33)
      omega
    · obtain ⟨n, hn⟩ := Int.eq_ofNat_of_zero_le (by omega : (0 : Int) ≤ -(r + g + b))
      have hs33 : (r + g + b).tdiv 33 = -((n : Int).tdiv 33) := by
        rw [show r + g + b = -(-(r + g + b)) by ring, hn, Int.neg_tdiv]
      have hle : ((n : Int)).tdiv 33 ≤ n := by
        rw [show (33 : Int) = ((33 : Nat) : Int) from rfl, ← Int.ofNat_tdiv]
        exact_mod_cast Nat.div_le_self n 33
      have hn47 : (n : Int) < 47 := by omega
      omega
  · have t1 := tdiv256_nonneg r (by omega)
    have t2 := tdiv256_nonneg g (by omega)
    have t3 := tdiv256_nonneg b (by omega)
    have m1 : 0 ≤ (6 * r).tdiv 256 * 36 := by positivity
    have m2 : 0 ≤ (6 * g).tdiv 256 * 6 := by positivity
    have m3 : 0 ≤ (6 * b).tdiv 256 * 1 := by positivity
    omega

/-- The piece values in 1–15 resolve as the claim's chromatic formula
for small channels: `rgb2ansi(1, 2, 3) = 16`. -/
theorem rgb2ansi_1_2_3 : rgb2ansi 1 2 3 = 16 := by
  unfold rgb2ansi
  rw [grayLoop_closed]
  decide

/-- `hex2ansi` raises `ValueError` exactly on the codes that are not,
after stripping a leading hash, program-parseable 3- or 6-character
hex bodies. -/
theorem hex2ansi_err (l : List Char) :
    hex2ansi l = .error .valueError ↔ ¬ pyParsableHex (stripHash l) := by
  unfold hex2ansi
  generalize stripHash l = m
  rcases m with _ | ⟨a, _ | ⟨b, _ | ⟨c, _ | ⟨d, _ | ⟨e, _ | ⟨f, _ | ⟨g2, rest⟩⟩⟩⟩⟩⟩⟩
  · simp [pyParsableHex]
  · simp [pyParsableHex]
  · simp [pyParsableHex]
  · rcases hx : hexVal a with _ | u <;> rcases hy : hexVal b with _ | v <;>
      rcases hz : hexVal c with _ | w <;>
      simp [pyIntHex2, hx, hy, hz, pyParsableHex]
  · simp [pyParsableHex]
  · simp [pyParsableHex]
  · rcases p1 : pyIntHex2 a b with _ | v1 <;> rcases p2 : pyIntHex2 c d with _ | v2 <;>
      rcases p3 : pyIntHex2 e f with _ | v3 <;>
      simp [p1, p2, p3, pyParsableHex]
  · simp [pyParsableHex]

/-- `hex2ansi` never raises `TypeError`. -/
theorem hex2ansi_ne_typeError (l : List Char) : hex2ansi l ≠ .error .typeError := by
  unfold hex2ansi
  split
  · split <;> simp
  · split <;> simp
  · simp

/-- A hex digit is never the hash character. -/
theorem hexVal_ne_hash (c : Char) (h : (hexVal c).isSome = true) : c ≠ '#' := by
  intro hc
  rw [hc] at h
  rw [show hexVal '#' = none from rfl] at h
  simp at h

/-- String inputs of `_color2ansi` raise `ValueError` exactly when they
are neither a named color nor a program-parseable hex code. -/
theorem color2ansi_str_err (s : List Char) :
    _color2ansi (.str s) = .error .valueError ↔
      s ∉ _colors ∧ ¬ pyParsableHex (stripHash s) := by
  unfold _color2ansi
  by_cases h : s ∈ _colors
  · simp [h]
  · simp [h, hex2ansi_err]

/-- Claim C1: when color is supported, rendering produces exactly the
wire-format escapes — in 256-color mode a set fgcolor wraps the text as
`ESC[38;5;{fg}m...ESC[0;39;49m` with a set bgcolor wrapped outside it;
in basic mode the `ESC[{30+fg}m` / `ESC[{40+bg}m` wraps apply only to
indices below 8 and indices 8–255 produce no escape; a non-empty styles
list adds one outer wrap with the semicolon-joined codes in insertion
order; and `colorize("alert", "ff0000")` renders on a 256-color
terminal to `"\x1b[38;5;196malert\x1b[0;39;49m"`. -/
theorem C1_render_wire_format :
    (∀ (t : String) (fg : Nat),
      Color.unicode ⟨t, some fg, none, []⟩ true true =
        "\x1b[38;5;" ++ toString fg ++ "m" ++ t ++ "\x1b[0;39;49m")
    ∧ (∀ (t : String) (fg bg : Nat),
      Color.unicode ⟨t, some fg, some bg, []⟩ true true =
        "\x1b[48;5;" ++ toString bg ++ "m" ++
          ("\x1b[38;5;" ++ toString fg ++ "m" ++ t ++ "\x1b[0;39;49m") ++ "\x1b[0;39;49m")
    ∧ (∀ (t : String) (fg : Nat), fg < 8 →
      Color.unicode ⟨t, some fg, none, []⟩ true false =
        "\x1b[" ++ toString (30 + fg) ++ "m" ++ t ++ "\x1b[0;39;49m")
    ∧ (∀ (t : String) (bg : Nat), bg < 8 →
      Color.unicode ⟨t, none, some bg, []⟩ true false =
        "\x1b[" ++ toString (40 + bg) ++ "m" ++ t ++ "\x1b[0;39;49m")
    ∧ (∀ (t : String) (fg : Nat), 8 ≤ fg →
      Color.unicode ⟨t, some fg, none, []⟩ true false = t)
    ∧ (∀ (t : String) (bg : Nat), 8 ≤ bg →
      Color.unicode ⟨t, none, some bg, []⟩ true false = t)
    ∧ (∀ (t : String) (fg bg : Nat), 8 ≤ fg → 8 ≤ bg →
      Color.unicode ⟨t, some fg, some bg, []⟩ true false = t)
    ∧ (∀ (c : Color) (s256 : Bool), c.styles ≠ [] →
      c.unicode true s256 =
        "\x1b[" ++ String.intercalate ";" (c.styles.map toString) ++ "m" ++
          (Color.mk c.unicode_text c.fgcolor c.bgcolor []).unicode true s256 ++
          "\x1b[0;39;49m")
    ∧ (colorize "alert" (.str "ff0000".data)).map (fun c => c.unicode true true) =
        .ok "\x1b[38;5;196malert\x1b[0;39;49m" := by
  refine ⟨fun t fg => rfl, fun t fg bg => rfl, ?_, ?_, ?_, ?_, ?_, ?_, ?_⟩
  · intro t fg h
    simp [Color.unicode, _reset, h]
  · intro t bg h
    simp [Color.unicode, _reset, h]
  · intro t fg h
    simp [Color.unicode, Nat.not_lt.mpr h]
  · intro t bg h
    simp [Color.unicode, Nat.not_lt.mpr h]
  · intro t fg bg h1 h2
    simp [Color.unicode, Nat.not_lt.mpr h1, Nat.not_lt.mpr h2]
  · intro c s256 h
    rcases c with ⟨t, fg, bg, st⟩
    simp only [Color.unicode] at *
    simp [h]
    rfl
  · have h1 : colorize "alert" (.str "ff0000".data) =
        .ok ⟨"alert",
          some ((rgb2ansiZ ((255 : Nat) : Int) ((0 : Nat) : Int)
            ((0 : Nat) : Int)).toNat), none, []⟩ := rfl
    rw [h1, rgb2ansiZ_natCast, rgb2ansi_255_0_0]
    rfl

/-- Witness for C1: each hypothesis-bearing clause applied at a
concrete styled value. -/
theorem C1_render_wire_format_witness :
    Color.unicode ⟨"hi", some 1, none, []⟩ true false =
      "\x1b[" ++ toString (30 + 1) ++ "m" ++ "hi" ++ "\x1b[0;39;49m"
    ∧ Color.unicode ⟨"hi", none, some 2, []⟩ true false =
      "\x1b[" ++ toString (40 + 2) ++ "m" ++ "hi" ++ "\x1b[0;39;49m"
    ∧ Color.unicode ⟨"hi", some 200, none, []⟩ true false = "hi"
    ∧ Color.unicode ⟨"hi", none, some 200, []⟩ true false = "hi"
    ∧ Color.unicode ⟨"hi", some 200, some 9, []⟩ true false = "hi"
    ∧ Color.unicode ⟨"hi", none, none, [1, 4]⟩ true true =
      "\x1b[" ++ String.intercalate ";" (([1, 4] : List Nat).map toString) ++ "m" ++
        (Color.mk "hi" none none []).unicode true true ++ "\x1b[0;39;49m" :=
  ⟨C1_render_wire_format.2.2.1 "hi" 1 (by decide),
   C1_render_wire_format.2.2.2.1 "hi" 2 (by decide),
   C1_render_wire_format.2.2.2.2.1 "hi" 200 (by decide),
   C1_render_wire_format.2.2.2.2.2.1 "hi" 200 (by decide),
   C1_render_wire_format.2.2.2.2.2.2.1 "hi" 200 9 (by decide) (by decide),
   C1_render_wire_format.2.2.2.2.2.2.2.1 ⟨"hi", none, none, [1, 4]⟩ true (by decide)⟩

/-- Counterexample to C3 as stated: the fluent attribute path appends
style codes without deduplication, so requesting `bold` twice on the
same value yields the styles multiset `[1, 1]`, not the set `{1}`. -/
theorem C3_fluent_duplicate_counterexample :
    ((((Color.init (.str "x") none none none).getattr "bold".data).bind
        (fun c => c.getattr "bold".data)).map Color.styles) = some [1, 1]
    ∧ ¬ ([1, 1] : List Nat).Nodup := ⟨rfl, by decide⟩

/-- Claim C3 (amended): applying the same style twice through the
style functions (constructor wrapping) is duplicate-free — `bold`
applied twice yields styles `[1]`, any constructor-wrap result has
duplicate-free styles, and composing two constructor style
applications is order-independent for the final set of codes.  The
fluent attribute path, by contrast, appends unconditionally and can
duplicate (see the counterexample). -/
theorem C3_style_dedup_amended :
    (∀ t : String, (bold (.col (bold (.str t)))).styles = [1])
    ∧ (∀ (A : Color) (s : List Nat),
        (Color.init (.col A) none none (some s)).styles.Nodup)
    ∧ (∀ (A : Color) (s1 s2 : List Nat) (x : Nat),
        x ∈ (Color.init (.col (Color.init (.col A) none none (some s1)))
              none none (some s2)).styles ↔
        x ∈ (Color.init (.col (Color.init (.col A) none none (some s2)))
              none none (some s1)).styles) := by
  refine ⟨fun t => rfl, ?_, ?_⟩
  · intro A s
    simp [Color.init, pySetUnion]
    exact List.nodup_dedup _
  · intro A s1 s2 x
    simp [Color.init, pySetUnion]
    tauto

/-- Counterexample to C4 as stated: wrapping a value whose styles
already contain a duplicate without supplying new styles keeps the
duplicate, so the result's styles are not a duplicate-free union (the
duplicated source value is reachable through the fluent path). -/
theorem C4_merge_duplicate_counterexample :
    (((Color.init (.str "x") none none none).getattr "bold".data).bind
        (fun c => c.getattr "bold".data)) = some ⟨"x", none, none, [1, 1]⟩
    ∧ (Color.init (.col ⟨"x", none, none, [1, 1]⟩) (some 1) none none).styles = [1, 1]
    ∧ ¬ ([1, 1] : List Nat).Nodup := ⟨rfl, rfl, by decide⟩

/-- Claim C4 (amended): wrapping an existing value preserves its text;
fgcolor/bgcolor take the newly supplied value, else the existing one;
when new styles are supplied the result's styles are the deduplicated
union of the new and existing styles; when no new styles are supplied
the result's styles are exactly the existing ones (so pre-existing
duplicates persist).  In particular `underline(bold(red("x")))` has
fgcolor red (1) and styles exactly {bold (1), underline (4)}. -/
theorem C4_merge_law_amended (A : Color) (fg bg : Option Nat)
    (st : Option (List Nat)) :
    (Color.init (.col A) fg bg st).unicode_text = A.unicode_text
    ∧ (Color.init (.col A) fg bg st).fgcolor =
        (match fg with | some v => some v | none => A.fgcolor)
    ∧ (Color.init (.col A) fg bg st).bgcolor =
        (match bg with | some v => some v | none => A.bgcolor)
    ∧ (∀ s, st = some s →
        ((Color.init (.col A) fg bg st).styles.Nodup ∧
         ∀ x, x ∈ (Color.init (.col A) fg bg st).styles ↔ (x ∈ s ∨ x ∈ A.styles)))
    ∧ (st = none → (Color.init (.col A) fg bg st).styles = A.styles)
    ∧ (underline (.col (bold (.col (red (.str "x")))))).fgcolor = some 1
    ∧ (underline (.col (bold (.col (red (.str "x")))))).bgcolor = none
    ∧ (underline (.col (bold (.col (red (.str "x")))))).styles.Nodup
    ∧ (∀ x, x ∈ (underline (.col (bold (.col (red (.str "x")))))).styles ↔
        (x = 1 ∨ x = 4)) := by
  refine ⟨rfl, rfl, rfl, ?_, ?_, rfl, rfl, by decide, ?_⟩
  · intro s hs
    subst hs
    refine ⟨List.nodup_dedup _, ?_⟩
    intro x
    simp [Color.init, pySetUnion]
  · intro h
    subst h
    rfl
  · intro x
    rw [show (underline (.col (bold (.col (red (.str "x")))))).styles = [4, 1] from rfl]
    simp
    tauto

/-- Witness for C4: the merge law applied at a concrete wrap, with new
styles supplied and with none supplied. -/
theorem C4_merge_law_amended_witness :
    (Color.init (.col ⟨"t", none, none, [2]⟩) (some 5) none (some [1])).styles.Nodup
    ∧ (Color.init (.col ⟨"t", none, none, [2]⟩) none none none).styles = [2] :=
  ⟨((C4_merge_law_amended ⟨"t", none, none, [2]⟩ (some 5) none (some [1])).2.2.2.1
      [1] rfl).1,
   (C4_merge_law_amended ⟨"t", none, none, [2]⟩ none none none).2.2.2.2.1 rfl⟩

/-- Claim C5: when color is unsupported, rendering returns the original
text unchanged regardless of the colors and styles set; in particular
`red("hi")` renders as `"hi"`. -/
theorem C5_unsupported_plain_text :
    (∀ (c : Color) (s256 : Bool), c.unicode false s256 = c.unicode_text)
    ∧ (∀ s256 : Bool, (red (.str "hi")).unicode false s256 = "hi") :=
  ⟨fun _ _ => rfl, fun _ => rfl⟩

/-- Counterexample to C6 as stated: a 4-element numeric sequence is not
a named color, a string, or a 2/3-element numeric sequence, so the
claim predicts `InvalidColorError` — but the code raises `TypeError`
(from the arity of `rgb2ansi(*color)`), not `ValueError`. -/
theorem C6_seq4_typeerror_counterexample :
    _color2ansi (.seq [0, 0, 0, 0]) = .error .typeError
    ∧ _color2ansi (.seq [0, 0, 0, 0]) ≠ .error .valueError := ⟨rfl, by decide⟩

/-- Claim C6 (amended): resolution fails with `InvalidColorError`
(Python `ValueError`) exactly when the input is a string (characters
restricted to ASCII, the modelled character set; CPython also
transliterates non-ASCII digits and spaces) that is neither a named
color nor, after stripping one leading hash, a 3-character code of hex
digits or a 6-character code whose three 2-character pieces
`int(·, 16)` accepts (which tolerates a sign or whitespace beside a
single hex digit — so `"ff 000"` and `"+1+2+3"` resolve with no
error); or a value that is neither a named color, string, nor numeric
sequence.  A numeric sequence of length other than 3 fails with
`TypeError` instead.  In particular `"zz0000"` and `"1234"` fail with
`InvalidColorError`, and resolution never fails on named colors, valid
hex codes, or integer RGB triples. -/
theorem C6_invalid_color_error_amended :
    (∀ s : List Char, (∀ ch ∈ s, ch.toNat ≤ 127) →
        (_color2ansi (.str s) = .error .valueError ↔
          (s ∉ _colors ∧ ¬ pyParsableHex (stripHash s))))
    ∧ (∀ s : List Char, _color2ansi (.str s) ≠ .error .typeError)
    ∧ (∀ s ∈ _colors, _color2ansi (.str s) = .ok (_colors.indexOf s))
    ∧ (∀ r g b : Nat, _color2ansi (.seq [r, g, b]) = .ok (rgb2ansi r g b))
    ∧ (∀ xs : List Nat, xs.length ≠ 3 → _color2ansi (.seq xs) = .error .typeError)
    ∧ _color2ansi .other = .error .valueError
    ∧ _color2ansi (.str "zz0000".data) = .error .valueError
    ∧ _color2ansi (.str "1234".data) = .error .valueError
    ∧ _color2ansi (.str "ff 000".data) = .ok 196
    ∧ _color2ansi (.str "+1+2+3".data) = .ok 16 := by
  refine ⟨fun s _ => color2ansi_str_err s, ?_, ?_, fun r g b => rfl, ?_, rfl,
    by decide, by decide, ?_, ?_⟩
  · intro s
    unfold _color2ansi
    by_cases h : s ∈ _colors
    · simp [h]
    · simp [h, hex2ansi_ne_typeError]
  · intro s h
    simp only [_color2ansi]
    rw [if_pos h]
  · intro xs h
    rcases xs with _ | ⟨x, _ | ⟨y, _ | ⟨z, _ | ⟨w, rest⟩⟩⟩⟩ <;> first | rfl | simp_all
  · have h1 : _color2ansi (.str "ff 000".data) =
        .ok ((rgb2ansiZ ((255 : Nat) : Int) ((0 : Nat) : Int)
          ((0 : Nat) : Int)).toNat) := rfl
    rw [h1, rgb2ansiZ_natCast, rgb2ansi_255_0_0]
    rfl
  · have h2 : _color2ansi (.str "+1+2+3".data) =
        .ok ((rgb2ansiZ ((1 : Nat) : Int) ((2 : Nat) : Int)
          ((3 : Nat) : Int)).toNat) := rfl
    rw [h2, rgb2ansiZ_natCast, rgb2ansi_1_2_3]
    rfl

/-- Witness for C6: the error characterization, named-color and
wrong-arity clauses at concrete inputs. -/
theorem C6_invalid_color_error_amended_witness :
    (_color2ansi (.str "zz0000".data) = .error .valueError ↔
      ("zz0000".data ∉ _colors ∧ ¬ pyParsableHex (stripHash "zz0000".data)))
    ∧ _color2ansi (.str "red".data) = .ok (_colors.indexOf "red".data)
    ∧ _color2ansi (.seq [1, 2]) = .error .typeError :=
  ⟨C6_invalid_color_error_amended.1 "zz0000".data (by decide),
   C6_invalid_color_error_amended.2.2.1 "red".data (by decide),
   C6_invalid_color_error_amended.2.2.2.2.1 [1, 2] (by decide)⟩

/-- Claim C7: a valid 6-digit hex code resolves to the same palette
index as the RGB triple of its three 2-digit bytes, and a 3-digit hex
code resolves like its digit-doubled 6-digit form. -/
theorem C7_hex_rgb_agreement :
    (∀ c1 c2 c3 c4 c5 c6 : Char,
      (hexVal c1).isSome = true → (hexVal c2).isSome = true →
      (hexVal c3).isSome = true → (hexVal c4).isSome = true →
      (hexVal c5).isSome = true → (hexVal c6).isSome = true →
      hex2ansi [c1, c2, c3, c4, c5, c6] =
        _color2ansi (.seq [16 * hv c1 + hv c2, 16 * hv c3 + hv c4,
          16 * hv c5 + hv c6]))
    ∧ (∀ c1 c2 c3 : Char,
      (hexVal c1).isSome = true → (hexVal c2).isSome = true →
      (hexVal c3).isSome = true →
      hex2ansi [c1, c2, c3] = hex2ansi [c1, c1, c2, c2, c3, c3]) := by
  constructor
  · intro c1 c2 c3 c4 c5 c6 h1 h2 h3 h4 h5 h6
    obtain ⟨u1, e1⟩ := Option.isSome_iff_exists.mp h1
    obtain ⟨u2, e2⟩ := Option.isSome_iff_exists.mp h2
    obtain ⟨u3, e3⟩ := Option.isSome_iff_exists.mp h3
    obtain ⟨u4, e4⟩ := Option.isSome_iff_exists.mp h4
    obtain ⟨u5, e5⟩ := Option.isSome_iff_exists.mp h5
    obtain ⟨u6, e6⟩ := Option.isSome_iff_exists.mp h6
    have hne := hexVal_ne_hash c1 h1
    have p12 : pyIntHex2 c1 c2 = some ((16 * u1 + u2 : Nat) : Int) := by
      simp [pyIntHex2, e1, e2]
    have p34 : pyIntHex2 c3 c4 = some ((16 * u3 + u4 : Nat) : Int) := by
      simp [pyIntHex2, e3, e4]
    have p56 : pyIntHex2 c5 c6 = some ((16 * u5 + u6 : Nat) : Int) := by
      simp [pyIntHex2, e5, e6]
    unfold hex2ansi
    rw [show stripHash [c1, c2, c3, c4, c5, c6] = [c1, c2, c3, c4, c5, c6] by
      simp [stripHash, hne]]
    simp only [p12, p34, p56, rgb2ansiZ_natCast]
    simp [hv, e1, e2, e3, e4, e5, e6, _color2ansi]
  · intro c1 c2 c3 h1 h2 h3
    have hne := hexVal_ne_hash c1 h1
    unfold hex2ansi
    rw [show stripHash [c1, c2, c3] = [c1, c2, c3] by simp [stripHash, hne],
      show stripHash [c1, c1, c2, c2, c3, c3] = [c1, c1, c2, c2, c3, c3] by
        simp [stripHash, hne]]

/-- Witness for C7 at the concrete codes `ff0000` and `abc`. -/
theorem C7_hex_rgb_agreement_witness :
    hex2ansi ['f', 'f', '0', '0', '0', '0'] =
      _color2ansi (.seq [16 * hv 'f' + hv 'f', 16 * hv '0' + hv '0',
        16 * hv '0' + hv '0'])
    ∧ hex2ansi ['a', 'b', 'c'] = hex2ansi ['a', 'a', 'b', 'b', 'c', 'c'] :=
  ⟨C7_hex_rgb_agreement.1 'f' 'f' '0' '0' '0' '0' (by decide) (by decide)
    (by decide) (by decide) (by decide) (by decide),
   C7_hex_rgb_agreement.2 'a' 'b' 'c' (by decide) (by decide) (by decide)⟩

/-- Claim C8: fluent attribute access on a styled value — one of the 8
color names sets that color's index as fgcolor, a `<color>_bg` variant
sets it as bgcolor, one of the 9 style names appends its code (list
position plus 1) to the styles, and any of the remaining names outside
this 25-name capability set fails with `UnknownAttributeError`
(Python `AttributeError`, modelled as `none`). -/
theorem C8_fluent_dispatch (c : Color) :
    (∀ name ∈ _colors,
      c.getattr name = some { c with fgcolor := some (_colors.indexOf name) })
    ∧ (∀ name ∈ _colors,
      c.getattr (name ++ ['_', 'b', 'g']) =
        some { c with bgcolor := some (_colors.indexOf name) })
    ∧ (∀ name ∈ _styles,
      c.getattr name = some { c with styles := c.styles ++ [_styles.indexOf name + 1] })
    ∧ (∀ key, key ∉ capSet → c.getattr key = none)
    ∧ capSet.length = 25 := by
  refine ⟨?_, ?_, ?_, ?_, by decide⟩
  · intro name h
    fin_cases h <;> rfl
  · intro name h
    fin_cases h <;> rfl
  · intro name h
    fin_cases h <;> rfl
  · intro key hk
    unfold Color.getattr
    split
    · next revName heq =>
      by_cases hmem : revName.reverse ∈ _colors
      · exfalso
        apply hk
        have hkey : key = revName.reverse ++ ['_', 'b', 'g'] := by
          have := congrArg List.reverse heq
          simpa using this
        rw [hkey]
        unfold capSet
        refine List.mem_append.mpr (Or.inl (List.mem_append.mpr (Or.inr ?_)))
        exact List.mem_map.mpr ⟨revName.reverse, hmem, rfl⟩
      · rw [if_neg hmem]
    · next hne =>
      by_cases h1 : key ∈ _colors
      · exact absurd (by unfold capSet; simp [h1]) hk
      · by_cases h2 : key ∈ _styles
        · exact absurd (by unfold capSet; simp [h2]) hk
        · simp [h1, h2]

/-- Witness for C8: each dispatch clause at a concrete value and
name. -/
theorem C8_fluent_dispatch_witness :
    Color.getattr ⟨"t", none, none, []⟩ "red".data =
      some { (⟨"t", none, none, []⟩ : Color) with
        fgcolor := some (_colors.indexOf "red".data) }
    ∧ Color.getattr ⟨"t", none, none, []⟩ ("red".data ++ ['_', 'b', 'g']) =
      some { (⟨"t", none, none, []⟩ : Color) with
        bgcolor := some (_colors.indexOf "red".data) }
    ∧ Color.getattr ⟨"t", none, none, []⟩ "bold".data =
      some { (⟨"t", none, none, []⟩ : Color) with
        styles := [] ++ [_styles.indexOf "bold".data + 1] }
    ∧ Color.getattr ⟨"t", none, none, []⟩ "nope".data = none :=
  ⟨(C8_fluent_dispatch ⟨"t", none, none, []⟩).1 "red".data (by decide),
   (C8_fluent_dispatch ⟨"t", none, none, []⟩).2.1 "red".data (by decide),
   (C8_fluent_dispatch ⟨"t", none, none, []⟩).2.2.1 "bold".data (by decide),
   (C8_fluent_dispatch ⟨"t", none, none, []⟩).2.2.2.1 "nope".data (by decide)⟩

/-- Claim C9: `gray` (and its alias `grey`) depends on 256-color
support — with the extended palette it sets the extended foreground
index 8 (beyond the basic 0–7), without it it sets foreground black (0)
combined with the conceal style, whose code is 8. -/
theorem C9_gray_fallback :
    (∀ t : String, (gray true (.str t)).fgcolor = some 8
      ∧ (gray false (.str t)).fgcolor = some 0
      ∧ (gray false (.str t)).styles = [8])
    ∧ grey = gray
    ∧ _styles.indexOf "conceal".data + 1 = 8 :=
  ⟨fun _ => ⟨rfl, rfl, rfl⟩, rfl, by decide⟩

/-- Claim C10: `gray_bg` (alias `grey_bg`) falls back differently from
the foreground `gray` — without 256-color support it sets background
black (0) combined with the bold style (code 1), not the conceal style
of the foreground fallback; with support it sets extended background
index 8. -/
theorem C10_gray_bg_fallback :
    (∀ t : String, (gray_bg false (.str t)).bgcolor = some 0
      ∧ (gray_bg false (.str t)).styles = [1]
      ∧ (gray_bg false (.str t)).styles ≠ (gray false (.str t)).styles
      ∧ (gray_bg true (.str t)).bgcolor = some 8)
    ∧ grey_bg = gray_bg
    ∧ _styles.indexOf "bold".data + 1 = 1 :=
  ⟨fun _ => ⟨rfl, rfl, by exact (by decide : ([1] : List Nat) ≠ [8]), rfl⟩,
   rfl, by decide⟩
